import Mathlib

/-!
# Shallow embedding of the vm2 execution core

This file embeds, in Lean, the parts of the vm2 virtual machine that the
verified properties speak about:

* the gas metering primitive `use_gas` and the predicated dispatch loop
  `run_starting_from` (src/state.rs);
* the call-frame near-call bookkeeping `push_near_call` / `pop_near_call`
  and `contained_gas` (src/callframe.rs);
* the return / revert handler `ret` and the panic unwinder `ret_panic`
  (src/instruction_handlers/ret.rs);
* the precompile-call handler (src/instruction_handlers/precompiles.rs).

Machine integers are embedded as `Nat` with an explicit `% 2 ^ 32` where the
source performs a wrapping `u32` addition; a `u32` subtraction that the source
performs unchecked (and that would underflow in Rust) is embedded as an
`Option` result, `none` marking the ill-defined case.  Rust slice indexing
that can go out of bounds (a Rust panic) is likewise embedded as `Option`.

Instruction pointers, which the source represents as raw pointers into the
current frame's instruction buffer, are embedded as indices into that buffer;
a program is represented by the number of instructions it holds, which is all
the embedded operations inspect (the handlers of other instructions are out
of scope here).

Fields of the source structures that none of the embedded operations read or
write (the 2^16-word stack and its pointer bitset, the address triple, the
keep-alive page list, the stipend) are omitted from the embedded records;
every field an embedded operation touches is present.
-/

/-- The ALU flag triple (LT_OF, EQ, GT) from src's `predication` module. -/
structure Flags where
  lt_of : Bool
  eq : Bool
  gt : Bool
deriving DecidableEq, Repr

/-- The instruction predicates. -/
inductive Predicate where
  | Always
  | IfGT
  | IfLT
  | IfEQ
  | IfGE
  | IfLE
  | IfNotEQ
  | IfGTOrLT
deriving DecidableEq, Repr

/-- Modelled from the spec: the `predication` module is not among the source
files; the spec lists the eight predicates and says `satisfied(flags)` is a
pure function of the flag triple, with the evident meaning of each name
(GT tests the GT flag, LT the LT_OF flag, EQ the EQ flag, and the composite
predicates are the corresponding disjunctions / negation). -/
def Predicate.satisfied : Predicate → Flags → Bool
  | .Always, _ => true
  | .IfGT, f => f.gt
  | .IfLT, f => f.lt_of
  | .IfEQ, f => f.eq
  | .IfGE, f => f.gt || f.eq
  | .IfLE, f => f.lt_of || f.eq
  | .IfNotEQ, f => !f.eq
  | .IfGTOrLT, f => f.gt || f.lt_of

/-- The panic kinds of src/state.rs, together with `InvalidInstruction`,
which the newer src/instruction_handlers/ret.rs raises (the source files
come from different revisions of the crate; the union is taken). -/
inductive Panic where
  | OutOfGas
  | IncorrectPointerTags
  | PointerOffsetTooLarge
  | PtrPackLowBitsNotZero
  | JumpingOutOfProgram
  | InvalidInstruction
deriving DecidableEq, Repr

/-- How a run can end (src/instruction.rs / src/instruction_handlers/ret.rs;
`Panicked` carries the panic kind, as in ret.rs). -/
inductive ExecutionEnd where
  | ProgramFinished (output : List Nat)
  | Reverted (output : List Nat)
  | Panicked (panic : Panic)
deriving DecidableEq, Repr

/-- Embeds `State::use_gas` (src/state.rs): subtract `amount` from the frame's gas
if it fits, otherwise raise `OutOfGas` leaving the gas untouched.  The result
is the updated gas together with the panic, if any. -/
def use_gas (gas amount : Nat) : Nat × Option Panic :=
  if amount ≤ gas then (gas - amount, none) else (gas, some Panic.OutOfGas)

/-- Embeds `State::run_starting_from` (src/state.rs), up to the handler invocation:
charge 1 gas, then repeatedly skip (and charge for) instructions whose
predicate the current flags do not satisfy.  Returns the index of the
instruction whose handler runs and the gas remaining at that point, or the
`OutOfGas` panic.  Walking past the end of the instruction buffer is
undefined behaviour in the source (a raw-pointer walk); that case is `none`. -/
def run_starting_from (preds : List Predicate) (flags : Flags) :
    Nat → Nat → Option (Except Panic (Nat × Nat))
  | ip, gas =>
    match h : use_gas gas 1 with
    | (_, some p) => some (Except.error p)
    | (gas', none) =>
      match preds.get? ip with
      | none => none
      | some pr =>
        if pr.satisfied flags then some (Except.ok (ip, gas'))
        else run_starting_from preds flags (ip + 1) gas'
  termination_by ip gas => gas
  decreasing_by
    simp only [use_gas] at h
    split at h <;> simp_all <;> omega

/-- The fat-pointer record of the spec's data model: `(memory_page, offset,
start, length)`, each a `u32`. -/
structure FatPointer where
  offset : Nat
  memory_page : Nat
  start : Nat
  length : Nat
deriving DecidableEq, Repr

/-- Modelled from the spec: `fat_pointer.rs` is not among the source files;
the spec says a fat pointer is losslessly packable into a 256-bit word at
fixed bit positions.  The layout used here places `offset`, `memory_page`,
`start`, `length` at consecutive 32-bit positions from the low end. -/
def FatPointer.into_u256 (fp : FatPointer) : Nat :=
  fp.offset % 2 ^ 32 + 2 ^ 32 * (fp.memory_page % 2 ^ 32)
    + 2 ^ 64 * (fp.start % 2 ^ 32) + 2 ^ 96 * (fp.length % 2 ^ 32)

/-- Modelled from the spec: inverse of the packing above. -/
def FatPointer.from_u256 (v : Nat) : FatPointer :=
  { offset := v % 2 ^ 32
    memory_page := v / 2 ^ 32 % 2 ^ 32
    start := v / 2 ^ 64 % 2 ^ 32
    length := v / 2 ^ 96 % 2 ^ 32 }

/-- Modelled from the spec: `ModifiedWorld` (src's `modified_world` module is
not among the source files) is a write-through overlay over the underlying
storage; storage writes are journaled append-only, a `Snapshot` records the
journal length, `rollback` truncates the journal to that length, and reads
consult the journal in reverse order before falling through to the
underlying storage.  A single executing address suffices for the properties
below, so keys are bare words. -/
structure ModifiedWorld where
  underlying : Nat → Nat
  journal : List (Nat × Nat)

/-- Modelled from the spec: journal the write (append-only). -/
def ModifiedWorld.write_storage (w : ModifiedWorld) (key value : Nat) : ModifiedWorld :=
  { w with journal := w.journal ++ [(key, value)] }

/-- Modelled from the spec: read the newest journaled write for the key,
falling through to the underlying storage. -/
def ModifiedWorld.read_storage (w : ModifiedWorld) (key : Nat) : Nat :=
  match w.journal.reverse.find? (fun e => e.1 == key) with
  | some e => e.2
  | none => w.underlying key

/-- Modelled from the spec: a snapshot is the journal length. -/
def ModifiedWorld.snapshot (w : ModifiedWorld) : Nat :=
  w.journal.length

/-- Modelled from the spec: rollback truncates the journal. -/
def ModifiedWorld.rollback (w : ModifiedWorld) (snap : Nat) : ModifiedWorld :=
  { w with journal := w.journal.take snap }

/-- Embeds `NearCallFrame` (src/callframe.rs): the bookkeeping pushed by a near
call. -/
structure NearCallFrame where
  call_instruction : Nat
  exception_handler : Nat
  previous_frame_sp : Nat
  previous_frame_gas : Nat
  world_before_this_frame : Nat
deriving DecidableEq, Repr

/-- Embeds `Callframe` (src/callframe.rs).  `program_length` stands for the shared
immutable program: the number of instructions it holds is all the embedded
handlers inspect (`program.get` only tests the index against it and control
transfer is by index).  Fields no embedded operation touches (the stack and
its bitset, the address triple, the keep-alive list, `stipend`, `is_static`,
the frame-level `context_u128`) are omitted, as explained at the top of the
file. -/
structure Callframe where
  exception_handler : Nat
  sp : Nat
  gas : Nat
  heap : Nat
  aux_heap : Nat
  calldata_heap : Nat
  near_calls : List NearCallFrame
  program_length : Nat
  world_before_this_frame : Nat
deriving DecidableEq, Repr

/-- Embeds `Callframe::push_near_call` (src/callframe.rs): record the call site,
handler, current `sp` and the caller gas left after handing `gas_to_call` to
the callee, then make `gas_to_call` the current gas.  The source computes
`self.gas - gas_to_call` with an unchecked `u32` subtraction, so the
operation is well-defined only when `gas_to_call ≤ gas`; the underflowing
case is `none`. -/
def Callframe.push_near_call (f : Callframe) (gas_to_call old_pc exception_handler
    world_before_this_frame : Nat) : Option Callframe :=
  if gas_to_call ≤ f.gas then
    some { f with
      near_calls :=
        { call_instruction := old_pc
          exception_handler
          previous_frame_sp := f.sp
          previous_frame_gas := f.gas - gas_to_call
          world_before_this_frame } :: f.near_calls
      gas := gas_to_call }
  else none

/-- Embeds `Callframe::pop_near_call` (src/callframe.rs): pop the most recent near
call, restoring its saved `sp` and gas, and hand back the call site, the
exception handler and the snapshot taken at the call. -/
def Callframe.pop_near_call (f : Callframe) : Option (Nat × Nat × Nat × Callframe) :=
  match f.near_calls with
  | [] => none
  | nc :: rest =>
    some (nc.call_instruction, nc.exception_handler, nc.world_before_this_frame,
      { f with sp := nc.previous_frame_sp, gas := nc.previous_frame_gas, near_calls := rest })

/-- Embeds `Callframe::contained_gas` (src/callframe.rs): the current gas plus the
gas parked in the near-call stack, summed as the source's wrapping `u32`
sum. -/
def Callframe.contained_gas (f : Callframe) : Nat :=
  (f.gas + (f.near_calls.map (fun nc => nc.previous_frame_gas)).sum) % 2 ^ 32

/-- The machine state `State` as used by the return handlers: the register
file with its pointer-flag mask, the flags, the current frame, the stack of
previous far frames (each paired with the index of the far-call instruction
that created it, the embedding of the stored instruction pointer), the heap
pool and the transient `context_u128`, plus the world overlay. -/
structure State where
  registers : List Nat
  register_pointer_flags : Nat
  flags : Flags
  current_frame : Callframe
  previous_frames : List (Nat × Callframe)
  heaps : List (List Nat)
  context_u128 : Nat
  world : ModifiedWorld

/-- Embeds `State::set_context_u128` (src/state.rs). -/
def State.set_context_u128 (s : State) (value : Nat) : State :=
  { s with context_u128 := value }

/-- Embeds `pop_near_call` lifted to the state, as the return handlers call it on
`state.current_frame`. -/
def State.pop_near_call (s : State) : Option (Nat × Nat × Nat × State) :=
  match s.current_frame.pop_near_call with
  | none => none
  | some (pc, eh, snap, f) => some (pc, eh, snap, { s with current_frame := f })

/-- Embeds `State::pop_frame`: restore the most recently pushed frame as current and
hand back the stored far-call instruction index together with the exception
handler the caller installed for the popped frame.  Modelled from the spec
where the revision of `state.rs` contemporary with ret.rs is not among the
source files: the spec says the far frame is popped and control may transfer
to the caller's exception handler, which src/callframe.rs stores on the
callee frame (`exception_handler`); the older src/state.rs shows `pop_frame`
restoring the previous frame as current. -/
def State.pop_frame (s : State) : Option (Nat × Nat × State) :=
  match s.previous_frames with
  | [] => none
  | (pc, f) :: rest =>
    some (pc, s.current_frame.exception_handler,
      { s with current_frame := f, previous_frames := rest })

/-- Modelled from the spec: `get_far_call_arguments` lives in the `call`
module, which is not among the source files; at a far return the spec says
the return value is the fat pointer decoded from register 1. -/
def get_far_call_arguments (s : State) : Except Panic FatPointer :=
  Except.ok (FatPointer.from_u256 (s.registers.getD 1 0))

/-- The root-frame exit output (src/instruction_handlers/ret.rs line 29):
`heaps[memory_page][start .. start + length]`, a direct Rust slice.  Both a
page index out of range and a slice end past the page's byte length are Rust
panics, embedded as `none`; no zero-padding takes place. -/
def rootOutput (heaps : List (List Nat)) (fp : FatPointer) : Option (List Nat) :=
  match heaps.get? fp.memory_page with
  | none => none
  | some page =>
    if fp.start + fp.length ≤ page.length then
      some ((page.drop fp.start).take fp.length)
    else none

/-- A handler's result: the index of the instruction to continue at, or the
end of the run (`InstructionResult` in the source, with instruction pointers
embedded as indices into the current frame's program). -/
inductive InstructionResult where
  | continue_at (ip : Nat) (s : State)
  | ended (e : ExecutionEnd) (s : State)

/-- Embeds `ret_panic` (src/instruction_handlers/ret.rs): unwind, popping near-call
frames and, when the near-call stack is empty, far frames (zeroing register 1
and setting its pointer flag), setting flags to (true,false,false) and
clearing the context, until an exception handler index inside the current
program is found; an out-of-range handler index escalates the panic to
`InvalidInstruction` and unwinding continues; with all frames exhausted the
run ends `Panicked`. -/
def ret_panic (s : State) (panic : Panic) : InstructionResult :=
  match hnc : s.current_frame.near_calls with
  | nc :: rest =>
    let s1 : State :=
      { s with
        current_frame :=
          { s.current_frame with
            sp := nc.previous_frame_sp
            gas := nc.previous_frame_gas
            near_calls := rest }
        flags := ⟨true, false, false⟩
        context_u128 := 0 }
    if nc.exception_handler < s1.current_frame.program_length then
      InstructionResult.continue_at nc.exception_handler s1
    else ret_panic s1 Panic.InvalidInstruction
  | [] =>
    match hpf : s.previous_frames with
    | [] => InstructionResult.ended (ExecutionEnd.Panicked panic) s
    | (_, f) :: rest =>
      let eh := s.current_frame.exception_handler
      let s1 : State :=
        { s with
          current_frame := f
          previous_frames := rest
          registers := s.registers.set 1 0
          register_pointer_flags := s.register_pointer_flags ||| 2
          flags := ⟨true, false, false⟩
          context_u128 := 0 }
      if eh < s1.current_frame.program_length then
        InstructionResult.continue_at eh s1
      else ret_panic s1 Panic.InvalidInstruction
  termination_by (s.previous_frames.length, s.current_frame.near_calls.length)
  decreasing_by
    · simp only [hnc]
      exact Prod.Lex.right _ (by simp)
    · simp only [hpf]
      exact Prod.Lex.left _ _ (by simp)

/-- Embeds `ret::<IS_REVERT>` (src/instruction_handlers/ret.rs).  `pc` below is the
embedded instruction pointer (an index into the now-current frame's
program).  The only Rust panic on this path is the root-exit output slice,
so the result is wrapped in `Option` with `none` for that case. -/
def ret (isRevert : Bool) (s : State) : Option InstructionResult :=
  let gas_left := s.current_frame.gas
  let step : Option (Nat × Nat × State) :=
    match s.pop_near_call with
    | some (pc, eh, _snap, s1) => some (pc, eh, s1)
    | none =>
      match get_far_call_arguments s with
      | Except.error _ => none
      | Except.ok return_value =>
        match s.pop_frame with
        | none => none
        | some (pc, eh, s1) =>
          let s2 := s1.set_context_u128 0
          let s3 : State :=
            { s2 with
              registers := (List.replicate 16 0).set 1 return_value.into_u256
              register_pointer_flags := 2 }
          some (pc, eh, s3)
  match step with
  | some (pc, eh, s1) =>
    let s2 : State :=
      { s1 with
        flags := ⟨false, false, false⟩
        current_frame :=
          { s1.current_frame with
            gas := (s1.current_frame.gas + gas_left) % 2 ^ 32 } }
    if isRevert then
      if eh < s2.current_frame.program_length then
        some (InstructionResult.continue_at eh s2)
      else some (ret_panic s2 Panic.InvalidInstruction)
    else some (InstructionResult.continue_at (pc + 1) s2)
  | none =>
    match get_far_call_arguments s with
    | Except.error panic => some (ret_panic s panic)
    | Except.ok return_value =>
      match rootOutput s.heaps return_value with
      | none => none
      | some output =>
        some (InstructionResult.ended
          (if isRevert then ExecutionEnd.Reverted output
           else ExecutionEnd.ProgramFinished output) s)

/-- Modelled from the spec: the SStore handler (src's `instruction_handlers`
storage module is not among the source files) calls
`ModifiedWorld::write_storage`; the write is journaled and visible to
subsequent reads until a matching rollback. -/
def State.sstore (s : State) (key value : Nat) : State :=
  { s with world := s.world.write_storage key value }

/-- Modelled from the spec: the SLoad handler consults
`ModifiedWorld::read_storage`. -/
def State.sload (s : State) (key : Nat) : Nat :=
  s.world.read_storage key

/-! ## Precompile calls

src/instruction_handlers/precompiles.rs.  The cryptographic round functions
and the ABI records come from external crates (`zk_evm_abstractions`,
`zkevm_opcode_defs`), which the spec places out of scope; the round
functions are abstracted as a heap transformer parameter and the ABI bit
layouts are modelled. -/

/-- Modelled from the spec: precompile address constant of the external
`zkevm_opcode_defs` crate. -/
def KECCAK256_ROUND_FUNCTION_PRECOMPILE_ADDRESS : Nat := 0x8010

/-- Modelled from the spec: precompile address constant of the external
`zkevm_opcode_defs` crate. -/
def SHA256_ROUND_FUNCTION_PRECOMPILE_ADDRESS : Nat := 0x0002

/-- Modelled from the spec: precompile address constant of the external
`zkevm_opcode_defs` crate. -/
def ECRECOVER_INNER_FUNCTION_PRECOMPILE_ADDRESS : Nat := 0x0001

/-- Modelled from the spec: precompile address constant of the external
`zkevm_opcode_defs` crate. -/
def SECP256R1_VERIFY_PRECOMPILE_ADDRESS : Nat := 0x0100

/-- Modelled from the spec: `PrecompileCallABI` of the external
`zkevm_opcode_defs` crate; the handler only inspects and patches the two
memory-page fields, so the remaining bits are carried through opaquely.  The
pages are placed at fixed 32-bit positions above the low 128 bits. -/
structure PrecompileCallABI where
  low : Nat
  memory_page_to_read : Nat
  memory_page_to_write : Nat
  high : Nat
deriving DecidableEq, Repr

/-- Modelled from the spec: unpack the ABI from a 256-bit word. -/
def PrecompileCallABI.from_u256 (v : Nat) : PrecompileCallABI :=
  { low := v % 2 ^ 128
    memory_page_to_read := v / 2 ^ 128 % 2 ^ 32
    memory_page_to_write := v / 2 ^ 160 % 2 ^ 32
    high := v / 2 ^ 192 }

/-- Modelled from the spec: repack the ABI into the query key. -/
def PrecompileCallABI.to_u256 (abi : PrecompileCallABI) : Nat :=
  abi.low % 2 ^ 128 + 2 ^ 128 * (abi.memory_page_to_read % 2 ^ 32)
    + 2 ^ 160 * (abi.memory_page_to_write % 2 ^ 32) + 2 ^ 192 * abi.high

/-- The slice of the machine state the precompile handler touches: the
current frame's gas and heap page id, the registers (register 2 supplies the
burn amount, register 1 the ABI and receives the success value), the heap
pool, and the low 16 bits of the executing address, which select the
primitive. -/
structure PrecompileVM where
  gas : Nat
  registers : List Nat
  heaps : List (List Nat)
  address_low : Nat
  current_heap : Nat
deriving DecidableEq, Repr

/-- The handler's result: either the statically allocated panic-return
instruction (`Ok(&PANIC)` in the source, which makes the dispatch loop run a
panic return next) or the instruction after the precompile call
(`continue_normally`). -/
inductive PrecompileOutcome where
  | panicInstruction
  | continueNormal
deriving DecidableEq, Repr

/-- The enclosing `instruction_boilerplate_with_panic` is not among the
source files; it only supplies the `continue_normally` continuation,
modelled by the `continueNormal` outcome below.

The packed query key `precompile_call` hands the primitive: the ABI from
register 1 with zero memory pages patched to the current frame's heap
(src/instruction_handlers/precompiles.rs lines 43-53). -/
def precompile_abi_key (vm : PrecompileVM) : Nat :=
  let abi0 := PrecompileCallABI.from_u256 (vm.registers.getD 1 0)
  let abi1 :=
    if abi0.memory_page_to_read = 0 then
      { abi0 with memory_page_to_read := vm.current_heap }
    else abi0
  let abi :=
    if abi1.memory_page_to_write = 0 then
      { abi1 with memory_page_to_write := vm.current_heap }
    else abi1
  abi.to_u256

/-- Embeds `precompile_call` (src/instruction_handlers/precompiles.rs): charge the
burn amount taken from register 2 — on failure return the panic instruction
with the state untouched — then run the primitive selected by the low
address bits on the query key `precompile_abi_key` (an unknown address runs
nothing and only burns the gas), write 1 into register 1 and continue
normally.  `prims` abstracts the external round functions. -/
def precompile_call (prims : Nat → Nat → List (List Nat) → List (List Nat))
    (vm : PrecompileVM) : PrecompileVM × PrecompileOutcome :=
  let extra_ergs_cost := vm.registers.getD 2 0 % 2 ^ 32
  match use_gas vm.gas extra_ergs_cost with
  | (_, some _) => (vm, PrecompileOutcome.panicInstruction)
  | (gas1, none) =>
    let vm1 := { vm with gas := gas1 }
    let heaps1 :=
      if vm1.address_low = KECCAK256_ROUND_FUNCTION_PRECOMPILE_ADDRESS
          ∨ vm1.address_low = SHA256_ROUND_FUNCTION_PRECOMPILE_ADDRESS
          ∨ vm1.address_low = ECRECOVER_INNER_FUNCTION_PRECOMPILE_ADDRESS
          ∨ vm1.address_low = SECP256R1_VERIFY_PRECOMPILE_ADDRESS then
        prims vm1.address_low (precompile_abi_key vm1) vm1.heaps
      else vm1.heaps
    ({ vm1 with heaps := heaps1, registers := vm1.registers.set 1 1 },
      PrecompileOutcome.continueNormal)

/-- Embeds `Memory::execute_partial_query` for `Heaps`
(src/instruction_handlers/precompiles.rs): a 32-byte word access at word
`index` of page `page`.  A write resizes the page with zeros up to the end
of the word if needed and overwrites the word; a read returns the bytes
zero-padded past the page's end without extending it.  (Indexing a page
absent from the pool is a Rust panic in the source; the properties below
only use existing pages, and the embedding reads an absent page as empty.)
Returns the updated heap pool and the 32 bytes read or written. -/
def execute_partial_query (heaps : List (List Nat)) (page index : Nat)
    (rw_flag : Bool) (value : List Nat) : List (List Nat) × List Nat :=
  let pg := heaps.getD page []
  let start := index * 32
  if rw_flag then
    let pg1 :=
      if pg.length < start + 32 then pg ++ List.replicate (start + 32 - pg.length) 0
      else pg
    let pg2 := pg1.take start ++ value.take 32 ++ pg1.drop (start + 32)
    (heaps.set page pg2, value)
  else
    (heaps, (List.range 32).map fun i => pg.getD (start + i) 0)

/-! ## Result projections and concrete sample states

Projections used to state concrete evaluations of the handlers, and the
concrete machine states the evaluations run on. -/

/-- The instruction index a handler result continues at, if any. -/
def resultIp : Option InstructionResult → Option Nat
  | some (InstructionResult.continue_at ip _) => some ip
  | _ => none

/-- The machine state a handler result carries, if any. -/
def resultState : Option InstructionResult → Option State
  | some (InstructionResult.continue_at _ s) => some s
  | some (InstructionResult.ended _ s) => some s
  | none => none

/-- The run-ending value of a handler result, if any. -/
def resultEnd : Option InstructionResult → Option ExecutionEnd
  | some (InstructionResult.ended e _) => some e
  | _ => none

/-- A world with empty journal over all-zero underlying storage. -/
def zeroWorld : ModifiedWorld :=
  { underlying := fun _ => 0, journal := [] }

/-- A caller frame whose heap is page 2 and aux heap page 3. -/
def sampleCaller : Callframe :=
  { exception_handler := 0, sp := 1024, gas := 50, heap := 2, aux_heap := 3,
    calldata_heap := 1, near_calls := [], program_length := 20,
    world_before_this_frame := 0 }

/-- A fat pointer into page 2 — the heap of `sampleCaller`. -/
def callerHeapPtr : FatPointer :=
  { offset := 0, memory_page := 2, start := 0, length := 4 }

/-- A callee frame whose calldata page is its caller's heap (page 2). -/
def sampleCallee : Callframe :=
  { exception_handler := 6, sp := 1024, gas := 7, heap := 4, aux_heap := 5,
    calldata_heap := 2, near_calls := [], program_length := 15,
    world_before_this_frame := 0 }

/-- A non-root machine state about to far-return `callerHeapPtr`, a pointer
into the caller's heap, from register 1. -/
def returnIntoCallerState : State :=
  { registers := (List.replicate 16 0).set 1 callerHeapPtr.into_u256
    register_pointer_flags := 2
    flags := ⟨false, false, false⟩
    current_frame := sampleCallee
    previous_frames := [(7, sampleCaller)]
    heaps := [[], [], [0, 0, 0, 0, 0, 0, 0, 0], [], [], []]
    context_u128 := 0
    world := zeroWorld }

/-- The root frame of the near-call revert scenario. -/
def revertScenarioFrame : Callframe :=
  { exception_handler := 0, sp := 1024, gas := 100, heap := 2, aux_heap := 3,
    calldata_heap := 1, near_calls := [], program_length := 10,
    world_before_this_frame := 0 }

/-- The revert scenario before anything happens. -/
def revertScenario0 : State :=
  { registers := List.replicate 16 0
    register_pointer_flags := 2
    flags := ⟨false, false, false⟩
    current_frame := revertScenarioFrame
    previous_frames := []
    heaps := [[], [], [], []]
    context_u128 := 0
    world := zeroWorld }

/-- The revert scenario after `SStore(1, 7)`. -/
def revertScenario1 : State :=
  revertScenario0.sstore 1 7

/-- The revert scenario after `NearCall` (10 gas passed, call site 3,
exception handler 5, snapshot taken after the first store). -/
def revertScenario2 : State :=
  { revertScenario1 with
    current_frame :=
      { revertScenarioFrame with
        near_calls :=
          [{ call_instruction := 3, exception_handler := 5,
             previous_frame_sp := 1024, previous_frame_gas := 90,
             world_before_this_frame := 1 }]
        gas := 10 } }

/-- The revert scenario after the callee's `SStore(1, 9)`, about to revert. -/
def revertScenario3 : State :=
  revertScenario2.sstore 1 9

/-- A state inside a near call (call site 3, exception handler 2), about to
return or revert. -/
def nearReturnState : State :=
  { registers := List.replicate 16 0
    register_pointer_flags := 0
    flags := ⟨false, true, false⟩
    current_frame :=
      { exception_handler := 0, sp := 2000, gas := 4, heap := 2, aux_heap := 3,
        calldata_heap := 1,
        near_calls :=
          [{ call_instruction := 3, exception_handler := 2,
             previous_frame_sp := 1024, previous_frame_gas := 90,
             world_before_this_frame := 0 }]
        program_length := 10, world_before_this_frame := 0 }
    previous_frames := []
    heaps := []
    context_u128 := 0
    world := zeroWorld }

/-- A root machine state about to far-return a pointer selecting bytes
[1, 5) of heap page 2, whose byte length is 6. -/
def rootExitState : State :=
  { registers := (List.replicate 16 0).set 1
      (FatPointer.into_u256 { offset := 0, memory_page := 2, start := 1, length := 4 })
    register_pointer_flags := 2
    flags := ⟨false, false, false⟩
    current_frame := sampleCaller
    previous_frames := []
    heaps := [[], [], [10, 11, 12, 13, 14, 15], []]
    context_u128 := 0
    world := zeroWorld }

/-- The heap transformer that leaves every heap unchanged, used to
instantiate the abstract precompile primitives in concrete evaluations. -/
def idPrims : Nat → Nat → List (List Nat) → List (List Nat) :=
  fun _ _ heaps => heaps

/-- A precompile-call state with 0 gas left, a burn amount of 5 in
register 2 and the value 7 in the output register. -/
def starvedPrecompileVM : PrecompileVM :=
  { gas := 0
    registers := [0, 7, 5]
    heaps := [[], [], []]
    address_low := SHA256_ROUND_FUNCTION_PRECOMPILE_ADDRESS
    current_heap := 2 }

/-- A state one near call deep whose near-call exception handler 99 is out
of range for the 10-instruction program, inside a far frame whose caller
(`sampleCaller`, program length 20) installed exception handler 6. -/
def panicState : State :=
  { registers := (List.replicate 16 0).set 1 5
    register_pointer_flags := 0
    flags := ⟨false, false, false⟩
    current_frame :=
      { exception_handler := 6, sp := 2000, gas := 4, heap := 4, aux_heap := 5,
        calldata_heap := 1,
        near_calls :=
          [{ call_instruction := 3, exception_handler := 99,
             previous_frame_sp := 1024, previous_frame_gas := 90,
             world_before_this_frame := 0 }]
        program_length := 10, world_before_this_frame := 0 }
    previous_frames := [(7, sampleCaller)]
    heaps := []
    context_u128 := 3
    world := zeroWorld }

/-- The state `ret_panic` reaches from `panicState`: the near-call frame and
then the far frame popped, register 1 zeroed with its pointer flag set,
flags (true,false,false). -/
def panicFinalState : State :=
  { registers := ((List.replicate 16 0).set 1 5).set 1 0
    register_pointer_flags := 2
    flags := ⟨true, false, false⟩
    current_frame := sampleCaller
    previous_frames := []
    heaps := []
    context_u128 := 0
    world := zeroWorld }

/-! ## Theorems -/

/-- C6: for every state and every amount, `use_gas(amount)` succeeds and
decreases the frame's gas by exactly `amount` when `gas ≥ amount` (the
subtraction is exact, so the gas never goes below zero), and raises
`OutOfGas` while leaving the gas unchanged when `gas < amount`: the would-be
subtraction is rejected before any mutation. -/
theorem use_gas_exact (gas amount : Nat) :
    (amount ≤ gas →
      use_gas gas amount = (gas - amount, none) ∧ (use_gas gas amount).1 + amount = gas) ∧
    (gas < amount → use_gas gas amount = (gas, some Panic.OutOfGas)) := by
  constructor
  · intro h
    refine ⟨by simp [use_gas, h], ?_⟩
    simp only [use_gas, if_pos h]
    omega
  · intro h
    simp only [use_gas]
    rw [if_neg (by omega)]

/-- Witness for C6: gas 5 covers amount 3 leaving exactly 2; gas 2 does not
cover amount 3 and stays 2 with `OutOfGas`. -/
theorem use_gas_exact_witness :
    use_gas 5 3 = (2, none) ∧ use_gas 2 3 = (2, some Panic.OutOfGas) :=
  ⟨((use_gas_exact 5 3).1 (by decide)).1, (use_gas_exact 2 3).2 (by decide)⟩

/-- C10: `push_near_call` computes the saved caller gas with an unchecked
`u32` subtraction `gas - gas_to_call`, so it is well-defined exactly when
`gas_to_call ≤ gas`; in that case the subtraction does not underflow (adding
`gas_to_call` back recovers the gas exactly) and the frame's total contained
gas, as computed by `contained_gas`, is preserved. -/
theorem push_near_call_contained_gas (f : Callframe) (gtc pc eh snap : Nat) :
    ((f.push_near_call gtc pc eh snap).isSome ↔ gtc ≤ f.gas) ∧
    (∀ f1, f.push_near_call gtc pc eh snap = some f1 →
      f.gas - gtc + gtc = f.gas ∧
      f1 = { f with
        near_calls :=
          { call_instruction := pc, exception_handler := eh,
            previous_frame_sp := f.sp, previous_frame_gas := f.gas - gtc,
            world_before_this_frame := snap } :: f.near_calls
        gas := gtc } ∧
      f1.contained_gas = f.contained_gas) := by
  unfold Callframe.push_near_call
  by_cases h : gtc ≤ f.gas
  · rw [if_pos h]
    refine ⟨by simp [h], ?_⟩
    intro f1 hf1
    injection hf1 with hf1
    refine ⟨by omega, hf1.symm, ?_⟩
    subst hf1
    unfold Callframe.contained_gas
    simp only [List.map_cons, List.sum_cons]
    congr 1
    omega
  · rw [if_neg h]
    exact ⟨by simp [h], by intro f1 hf1; cases hf1⟩

/-- Witness for C10: pushing a 20-gas near call from `sampleCaller` (50 gas)
saves 30 gas, and the contained gas is preserved. -/
theorem push_near_call_contained_gas_witness :
    sampleCaller.gas - 20 + 20 = sampleCaller.gas ∧
    (Callframe.contained_gas
      { sampleCaller with
        near_calls :=
          [{ call_instruction := 3, exception_handler := 4,
             previous_frame_sp := 1024, previous_frame_gas := 30,
             world_before_this_frame := 0 }]
        gas := 20 }) = sampleCaller.contained_gas := by
  have h := (push_near_call_contained_gas sampleCaller 20 3 4 0).2
    { sampleCaller with
      near_calls :=
        [{ call_instruction := 3, exception_handler := 4,
           previous_frame_sp := 1024, previous_frame_gas := 30,
           world_before_this_frame := 0 }]
      gas := 20 } (by decide)
  exact ⟨h.1, h.2.2⟩

/-- C5: the dispatch loop charges exactly 1 gas for every instruction it
considers — if it reaches the handler of instruction `ip'` after starting at
`ip`, the remaining gas is the initial gas minus one per considered
instruction, every skipped instruction's predicate was unsatisfied and the
reached instruction's predicate is satisfied — and when it raises a panic,
the panic is `OutOfGas` and every one of the `gas` charges made before the
failing one went to an unsatisfied instruction. -/
theorem dispatch_charges_one_gas (preds : List Predicate) (flags : Flags) (ip gas : Nat) :
    (∀ ip' gas', run_starting_from preds flags ip gas = some (Except.ok (ip', gas')) →
      ip ≤ ip' ∧ gas' + (ip' - ip) + 1 = gas ∧
      (∀ j, ip ≤ j → j < ip' → ∃ p, preds.get? j = some p ∧ p.satisfied flags = false) ∧
      (∃ p, preds.get? ip' = some p ∧ p.satisfied flags = true)) ∧
    (∀ e, run_starting_from preds flags ip gas = some (Except.error e) →
      e = Panic.OutOfGas ∧
      ∀ j, ip ≤ j → j < ip + gas → ∃ p, preds.get? j = some p ∧ p.satisfied flags = false) := by
  induction gas using Nat.strong_induction_on generalizing ip with
  | _ gas IH =>
    rw [run_starting_from]
    split
    · rename_i fst p heq
      have hg : gas < 1 ∧ p = Panic.OutOfGas := by
        simp only [use_gas] at heq
        split at heq <;> simp_all
      constructor
      · intro ip' gas' h
        exact absurd h (by simp)
      · intro e h
        simp only [Option.some.injEq, Except.error.injEq] at h
        refine ⟨h ▸ hg.2.symm ▸ rfl, ?_⟩
        intro j hj1 hj2
        omega
    · rename_i gas1 heq
      have hg : 1 ≤ gas ∧ gas1 = gas - 1 := by
        simp only [use_gas] at heq
        split at heq <;> simp_all
      obtain ⟨hg, hgas1⟩ := hg
      subst hgas1
      split
      · constructor
        · intro ip' gas' h
          exact absurd h (by simp)
        · intro e h
          exact absurd h (by simp)
      · rename_i pr hp
        split
        · rename_i hs
          constructor
          · intro ip' gas' h
            simp only [Option.some.injEq, Except.ok.injEq, Prod.mk.injEq] at h
            obtain ⟨h1, h2⟩ := h
            subst h1; subst h2
            exact ⟨le_refl _, by omega, by omega, ⟨pr, hp, hs⟩⟩
          · intro e h
            exact absurd h (by simp)
        · rename_i hs
          have IH1 := IH (gas - 1) (by omega) (ip + 1)
          constructor
          · intro ip' gas' h
            obtain ⟨h1, h2, h3, h4⟩ := IH1.1 ip' gas' h
            refine ⟨by omega, by omega, ?_, h4⟩
            intro j hj1 hj2
            rcases Nat.eq_or_lt_of_le hj1 with hj | hj
            · exact ⟨pr, hj ▸ hp, by simpa using hs⟩
            · exact h3 j hj hj2
          · intro e h
            obtain ⟨h1, h2⟩ := IH1.2 e h
            refine ⟨h1, ?_⟩
            intro j hj1 hj2
            rcases Nat.eq_or_lt_of_le hj1 with hj | hj
            · exact ⟨pr, hj ▸ hp, by simpa using hs⟩
            · exact h2 j hj (by omega)

/-- Witness for C5: starting at instruction 0 of a three-instruction program
whose first two predicates are unsatisfied, the loop reaches instruction 2
with 5 - 3 = 2 gas left, one gas per considered instruction. -/
theorem dispatch_charges_one_gas_witness :
    (0 : Nat) ≤ 2 ∧ (2 : Nat) + (2 - 0) + 1 = 5 := by
  have heval : run_starting_from [Predicate.IfEQ, Predicate.IfEQ, Predicate.Always]
      ⟨false, false, false⟩ 0 5 = some (Except.ok (2, 2)) := by
    simp [run_starting_from, use_gas, Predicate.satisfied]
  have h := (dispatch_charges_one_gas [Predicate.IfEQ, Predicate.IfEQ, Predicate.Always]
      ⟨false, false, false⟩ 0 5).1 2 2 heval
  exact ⟨h.1, h.2.1⟩

/-- C7: popping a near-call frame created by a matching push restores `sp`
exactly to its value at the push and sets the gas to the value saved at the
push (the gas at the push minus the gas passed to the callee), whatever the
callee made of `sp` and gas in between; the `ret` handler then adds the
callee's unspent gas `gl` back on both normal return and revert, so after a
near-call return the frame's gas is its value at the push minus exactly the
gas the callee consumed. -/
theorem near_call_push_pop_gas (f f1 : Callframe) (gtc pc eh snap sp' gl : Nat)
    (s : State) (b : Bool)
    (hpush : f.push_near_call gtc pc eh snap = some f1)
    (hcf : s.current_frame = { f1 with sp := sp', gas := gl })
    (hgl : gl ≤ gtc) (hlt : f.gas < 2 ^ 32)
    (hb : b = true → eh < f.program_length) :
    s.pop_near_call = some (pc, eh, snap,
      { s with current_frame := { f with gas := f.gas - gtc } }) ∧
    ret b s = some (InstructionResult.continue_at (if b then eh else pc + 1)
      { s with
        flags := ⟨false, false, false⟩
        current_frame := { f with gas := f.gas - (gtc - gl) } }) := by
  have hle : gtc ≤ f.gas := by
    by_contra hc
    simp [Callframe.push_near_call, hc] at hpush
  simp only [Callframe.push_near_call, if_pos hle, Option.some.injEq] at hpush
  subst hpush
  obtain ⟨regs, rpf, fl, cf, pf, hps, cu, w⟩ := s
  subst hcf
  have hmod : (f.gas - gtc + gl) % 2 ^ 32 = f.gas - (gtc - gl) := by
    rw [Nat.mod_eq_of_lt (by omega)]
    omega
  constructor
  · simp [State.pop_near_call, Callframe.pop_near_call]
  · cases b with
    | false =>
      simp [ret, State.pop_near_call, Callframe.pop_near_call]
      omega
    | true =>
      simp [ret, State.pop_near_call, Callframe.pop_near_call, hb rfl]
      omega

/-- Witness for C7: a revert inside a near call pushed from
`revertScenarioFrame` (100 gas, 10 passed) with 4 gas unspent restores
`sp = 1024` and leaves 100 - (10 - 4) = 94 gas. -/
theorem near_call_push_pop_gas_witness :
    nearReturnState.pop_near_call = some (3, 2, 0,
      { nearReturnState with
        current_frame := { revertScenarioFrame with gas := revertScenarioFrame.gas - 10 } }) ∧
    ret true nearReturnState = some (InstructionResult.continue_at (if true then 2 else 3 + 1)
      { nearReturnState with
        flags := ⟨false, false, false⟩
        current_frame :=
          { revertScenarioFrame with gas := revertScenarioFrame.gas - (10 - 4) } }) :=
  near_call_push_pop_gas revertScenarioFrame
    { revertScenarioFrame with
      near_calls :=
        [{ call_instruction := 3, exception_handler := 2,
           previous_frame_sp := 1024, previous_frame_gas := 90,
           world_before_this_frame := 0 }]
      gas := 10 }
    10 3 2 0 2000 4 nearReturnState true (by decide) (by decide) (by decide) (by decide)
    (fun _ => by decide)

/-- C4 (amended): on every near-call return the flags are cleared to
(false,false,false) before control transfers to the continuation — the
call-site successor on a normal return, the popped exception handler on a
revert — on the revert path just as on the normal path (the source's `ret`
assigns `Flags::new(false, false, false)` unconditionally; only panic
unwinding sets (true,false,false)). -/
theorem near_return_clears_flags (s : State) (nc : NearCallFrame)
    (rest : List NearCallFrame) (b : Bool)
    (hnc : s.current_frame.near_calls = nc :: rest)
    (hb : b = true → nc.exception_handler < s.current_frame.program_length) :
    resultIp (ret b s) = some (if b then nc.exception_handler else nc.call_instruction + 1) ∧
    (resultState (ret b s)).map (fun s' => s'.flags) = some ⟨false, false, false⟩ := by
  obtain ⟨regs, rpf, fl, cf, pf, hps, cu, w⟩ := s
  obtain ⟨ehf, sp, gas, hp, ah, ch, ncs, pl, wb⟩ := cf
  simp only at hnc hb
  subst hnc
  cases b with
  | false =>
    simp [ret, resultIp, resultState, State.pop_near_call, Callframe.pop_near_call]
  | true =>
    simp [ret, resultIp, resultState, State.pop_near_call, Callframe.pop_near_call, hb rfl]

/-- Counterexample for C4: a revert from the near call of `nearReturnState`
transfers control to the popped exception handler 2 with flags
(false,false,false), not (true,false,false) as claimed. -/
theorem near_return_revert_flags_counterexample :
    resultIp (ret true nearReturnState) = some 2 ∧
    (resultState (ret true nearReturnState)).map (fun s => s.flags)
      = some ⟨false, false, false⟩ ∧
    (⟨false, false, false⟩ : Flags) ≠ ⟨true, false, false⟩ := by
  exact ⟨rfl, rfl, by decide⟩

/-- Witness for C4 (amended): the same revert, through the general
theorem. -/
theorem near_return_clears_flags_witness :
    resultIp (ret true nearReturnState) = some (if true then 2 else 3 + 1) ∧
    (resultState (ret true nearReturnState)).map (fun s' => s'.flags)
      = some ⟨false, false, false⟩ :=
  near_return_clears_flags nearReturnState
    { call_instruction := 3, exception_handler := 2, previous_frame_sp := 1024,
      previous_frame_gas := 90, world_before_this_frame := 0 }
    [] true rfl (fun _ => by decide)

/-- C1 (code evaluation at the failing input): a far return from the
non-root frame of `returnIntoCallerState`, whose register 1 decodes to
`callerHeapPtr` — a pointer whose memory page is the caller's heap —
performs a normal return: control continues after the far-call instruction
(index 7 + 1), the caller-heap pointer itself (not a zero pointer) is placed
in register 1, and no panic is raised.  The check the spec describes is the
`TODO` at src/instruction_handlers/ret.rs line 26; the `Panic` type has no
`ReturnPointerIntoCallersHeap` variant. -/
theorem far_return_pointer_unchecked :
    callerHeapPtr.memory_page = sampleCaller.heap ∧
    resultIp (ret false returnIntoCallerState) = some 8 ∧
    (resultState (ret false returnIntoCallerState)).map (fun s => s.registers.getD 1 0)
      = some callerHeapPtr.into_u256 ∧
    callerHeapPtr.into_u256 ≠ 0 ∧
    resultEnd (ret false returnIntoCallerState) = none := by
  exact ⟨rfl, rfl, rfl, by decide, rfl⟩

/-- C2 (code evaluation at the failing input): in the scenario
SStore(1,7); NearCall; SStore(1,9); Revert — `revertScenario3` is the state
just before the revert, whose near-call frame records the snapshot taken at
the push — the revert pops the near call and transfers to the exception
handler 5, but the world is not rolled back to the snapshot: the subsequent
SLoad(1) yields 9, not 7. -/
theorem near_revert_no_rollback :
    revertScenario1.current_frame.push_near_call 10 3 5 revertScenario1.world.snapshot
      = some revertScenario2.current_frame ∧
    revertScenario1.sload 1 = 7 ∧
    resultIp (ret true revertScenario3) = some 5 ∧
    (resultState (ret true revertScenario3)).map (fun s => s.sload 1) = some 9 := by
  exact ⟨by decide, rfl, rfl, rfl⟩

/-- C9: at root-frame exit, `ret` slices
`heaps[memory_page][start .. start+length]` of the fat pointer decoded from
register 1 directly: under the precondition `start + length ≤` the page's
byte length the run ends with exactly that slice, and for a pointer
extending past the page's end the out-of-bounds branch is reached (embedded
as `none`, a Rust panic) — whereas the heap word read (the memory-query
interface) is total, leaves the heaps unchanged and zero-pads past the
page's end instead. -/
theorem root_exit_output_bounds (s : State) (page : List Nat) (fp : FatPointer)
    (hnc : s.current_frame.near_calls = [])
    (hpf : s.previous_frames = [])
    (hfp : fp = FatPointer.from_u256 (s.registers.getD 1 0))
    (hpage : s.heaps.get? fp.memory_page = some page) :
    (fp.start + fp.length ≤ page.length →
      ret false s = some (InstructionResult.ended
        (ExecutionEnd.ProgramFinished ((page.drop fp.start).take fp.length)) s)) ∧
    (page.length < fp.start + fp.length → ret false s = none) ∧
    (∀ index value,
      (execute_partial_query s.heaps fp.memory_page index false value).1 = s.heaps ∧
      (execute_partial_query s.heaps fp.memory_page index false value).2.length = 32 ∧
      ∀ i, i < 32 → page.length ≤ index * 32 + i →
        (execute_partial_query s.heaps fp.memory_page index false value).2.getD i 1 = 0) := by
  obtain ⟨regs, rpf, fl, cf, pf, hps, cu, w⟩ := s
  simp only at hnc hpf hfp hpage
  subst hpf
  refine ⟨?_, ?_, ?_⟩
  · intro hle
    simp only [ret, State.pop_near_call, Callframe.pop_near_call, hnc,
      get_far_call_arguments, State.pop_frame, rootOutput]
    rw [← hfp, hpage]
    simp [hle]
  · intro hgt
    simp only [ret, State.pop_near_call, Callframe.pop_near_call, hnc,
      get_far_call_arguments, State.pop_frame, rootOutput]
    rw [← hfp, hpage]
    dsimp only
    rw [if_neg (by omega : ¬(fp.start + fp.length ≤ page.length))]
  · intro index value
    have hpg : hps.getD fp.memory_page [] = page := by
      rw [List.getD_eq_getD_get?, hpage]
      rfl
    refine ⟨rfl, ?_, ?_⟩
    · show ((List.range 32).map
        fun i => (hps.getD fp.memory_page []).getD (index * 32 + i) 0).length = 32
      simp
    · intro i hi hbound
      show ((List.range 32).map
        fun j => (hps.getD fp.memory_page []).getD (index * 32 + j) 0).getD i 1 = 0
      rw [List.getD_eq_getElem _ _ (by simpa using hi)]
      simp only [List.getElem_map, List.getElem_range]
      rw [hpg]
      exact List.getD_eq_default _ _ hbound

/-- Witness for C9: the root exit of `rootExitState` returns bytes [1, 5) of
page 2 exactly; moving the pointer to [3, 7) on the 6-byte page reaches the
out-of-bounds branch. -/
theorem root_exit_output_bounds_witness :
    ret false rootExitState = some (InstructionResult.ended
      (ExecutionEnd.ProgramFinished [11, 12, 13, 14]) rootExitState) ∧
    ret false { rootExitState with
      registers := (List.replicate 16 0).set 1
        (FatPointer.into_u256 { offset := 0, memory_page := 2, start := 3, length := 4 }) }
      = none := by
  constructor
  · exact (root_exit_output_bounds rootExitState [10, 11, 12, 13, 14, 15]
      { offset := 0, memory_page := 2, start := 1, length := 4 }
      rfl rfl (by decide) rfl).1 (by decide)
  · exact (root_exit_output_bounds
      { rootExitState with
        registers := (List.replicate 16 0).set 1
          (FatPointer.into_u256 { offset := 0, memory_page := 2, start := 3, length := 4 }) }
      [10, 11, 12, 13, 14, 15]
      { offset := 0, memory_page := 2, start := 3, length := 4 }
      rfl rfl (by decide) rfl).2.1 (by decide)

/-- C3 (amended): when the operand-supplied burn amount exceeds the
remaining gas, the precompile handler returns the statically allocated
panic-return instruction with the state untouched — in particular it does
not write 0 into the output register and does not continue; otherwise it
charges exactly the burn amount, writes success = 1 into the output
register and continues normally, running the primitive selected by the low
address bits against the heaps, while an unknown precompile address has no
memory effect. -/
theorem precompile_failure_panics (prims : Nat → Nat → List (List Nat) → List (List Nat))
    (vm : PrecompileVM) :
    (vm.gas < vm.registers.getD 2 0 % 2 ^ 32 →
      precompile_call prims vm = (vm, PrecompileOutcome.panicInstruction)) ∧
    (vm.registers.getD 2 0 % 2 ^ 32 ≤ vm.gas →
      (precompile_call prims vm).2 = PrecompileOutcome.continueNormal ∧
      (precompile_call prims vm).1.registers = vm.registers.set 1 1 ∧
      (precompile_call prims vm).1.gas + vm.registers.getD 2 0 % 2 ^ 32 = vm.gas ∧
      (vm.address_low ≠ KECCAK256_ROUND_FUNCTION_PRECOMPILE_ADDRESS →
       vm.address_low ≠ SHA256_ROUND_FUNCTION_PRECOMPILE_ADDRESS →
       vm.address_low ≠ ECRECOVER_INNER_FUNCTION_PRECOMPILE_ADDRESS →
       vm.address_low ≠ SECP256R1_VERIFY_PRECOMPILE_ADDRESS →
        (precompile_call prims vm).1.heaps = vm.heaps) ∧
      ((vm.address_low = KECCAK256_ROUND_FUNCTION_PRECOMPILE_ADDRESS ∨
        vm.address_low = SHA256_ROUND_FUNCTION_PRECOMPILE_ADDRESS ∨
        vm.address_low = ECRECOVER_INNER_FUNCTION_PRECOMPILE_ADDRESS ∨
        vm.address_low = SECP256R1_VERIFY_PRECOMPILE_ADDRESS) →
        (precompile_call prims vm).1.heaps
          = prims vm.address_low (precompile_abi_key vm) vm.heaps)) := by
  constructor
  · intro h
    simp only [precompile_call, use_gas]
    rw [if_neg (by omega)]
  · intro h
    simp only [precompile_call, use_gas, if_pos h]
    refine ⟨by trivial, by trivial, by omega, ?_, ?_⟩
    · intro h1 h2 h3 h4
      simp [h1, h2, h3, h4]
    · intro hmem
      rw [if_pos hmem]
      rfl

/-- Counterexample for C3: with 0 gas and a burn amount of 5,
`precompile_call` returns the panic instruction (initiating panic handling)
with the state untouched: the output register keeps its old value 7 — it is
not set to 0 — and execution does not continue normally. -/
theorem precompile_starved_counterexample :
    precompile_call idPrims starvedPrecompileVM
      = (starvedPrecompileVM, PrecompileOutcome.panicInstruction) ∧
    (precompile_call idPrims starvedPrecompileVM).1.registers.getD 1 0 = 7 ∧
    (precompile_call idPrims starvedPrecompileVM).2 ≠ PrecompileOutcome.continueNormal := by
  exact ⟨rfl, rfl, by decide⟩

/-- Witness for C3 (amended): a successful call at an unknown precompile
address burns 3 of 10 gas, writes 1 into register 1 and leaves the heaps
unchanged. -/
theorem precompile_failure_panics_witness :
    (precompile_call idPrims
      { gas := 10, registers := [0, 7, 3], heaps := [[5]], address_low := 5,
        current_heap := 0 }).2 = PrecompileOutcome.continueNormal ∧
    (precompile_call idPrims
      { gas := 10, registers := [0, 7, 3], heaps := [[5]], address_low := 5,
        current_heap := 0 }).1.registers = [0, 1, 3] ∧
    (precompile_call idPrims
      { gas := 10, registers := [0, 7, 3], heaps := [[5]], address_low := 5,
        current_heap := 0 }).1.gas + 3 = 10 ∧
    (precompile_call idPrims
      { gas := 10, registers := [0, 7, 3], heaps := [[5]], address_low := 5,
        current_heap := 0 }).1.heaps = [[5]] := by
  have h := (precompile_failure_panics idPrims
    { gas := 10, registers := [0, 7, 3], heaps := [[5]], address_low := 5,
      current_heap := 0 }).2 (by decide)
  exact ⟨h.1, h.2.1, h.2.2.1, h.2.2.2.1 (by decide) (by decide) (by decide) (by decide)⟩

/-- Helper: after `registers[1] = 0`, reading register 1 gives 0 (also when
the register file is shorter than two entries, where the default is 0). -/
theorem setOne_getD_zero (l : List Nat) : (l.set 1 0).getD 1 0 = 0 := by
  match l with
  | [] => rfl
  | [a] => rfl
  | a :: b :: t => rfl

/-- Helper: or-ing `1 << 1` into a pointer-flag mask sets bit 1. -/
theorem orTwo_testBit_one (x : Nat) : (x ||| 2).testBit 1 = true := by
  simp [Nat.testBit_or]
  exact Or.inr rfl

/-- C8: `ret_panic` pops near-call frames and, with an empty near-call
stack, far frames — placing a zero pointer in register 1 with its pointer
flag set whenever a far frame was popped — until it reaches an exception
handler index inside the then-current program, transferring control there
with flags (true,false,false); an out-of-range handler index escalates the
panic to `InvalidInstruction` and unwinding continues; when all frames are
exhausted the run ends `Panicked` (with the original panic, or
`InvalidInstruction` if an escalation happened on the way), register
contents being otherwise untouched by the unwinding. -/
theorem ret_panic_unwinds (s : State) (panic : Panic) :
    (∀ ip s', ret_panic s panic = InstructionResult.continue_at ip s' →
      ip < s'.current_frame.program_length ∧
      s'.flags = ⟨true, false, false⟩ ∧
      s'.previous_frames.length ≤ s.previous_frames.length ∧
      ((s'.registers = s.registers ∧ s'.register_pointer_flags = s.register_pointer_flags) ∨
        (s'.registers.getD 1 0 = 0 ∧ s'.register_pointer_flags.testBit 1 = true)) ∧
      (s'.previous_frames.length < s.previous_frames.length →
        s'.registers.getD 1 0 = 0 ∧ s'.register_pointer_flags.testBit 1 = true)) ∧
    (∀ e s', ret_panic s panic = InstructionResult.ended e s' →
      s'.current_frame.near_calls = [] ∧ s'.previous_frames = [] ∧
      (e = ExecutionEnd.Panicked panic ∨ e = ExecutionEnd.Panicked Panic.InvalidInstruction)) := by
  suffices H : ∀ n m (s : State) (panic : Panic), s.previous_frames.length = n →
      s.current_frame.near_calls.length = m →
      (∀ ip s', ret_panic s panic = InstructionResult.continue_at ip s' →
        ip < s'.current_frame.program_length ∧
        s'.flags = ⟨true, false, false⟩ ∧
        s'.previous_frames.length ≤ s.previous_frames.length ∧
        ((s'.registers = s.registers ∧ s'.register_pointer_flags = s.register_pointer_flags) ∨
          (s'.registers.getD 1 0 = 0 ∧ s'.register_pointer_flags.testBit 1 = true)) ∧
        (s'.previous_frames.length < s.previous_frames.length →
          s'.registers.getD 1 0 = 0 ∧ s'.register_pointer_flags.testBit 1 = true)) ∧
      (∀ e s', ret_panic s panic = InstructionResult.ended e s' →
        s'.current_frame.near_calls = [] ∧ s'.previous_frames = [] ∧
        (e = ExecutionEnd.Panicked panic ∨ e = ExecutionEnd.Panicked Panic.InvalidInstruction)) by
    exact H _ _ s panic rfl rfl
  intro n
  induction n using Nat.strong_induction_on with
  | _ n IHn =>
    intro m
    induction m using Nat.strong_induction_on with
    | _ m IHm =>
      intro s panic hn hm
      rw [ret_panic]
      split
      · rename_i nc rest hnc
        dsimp only
        split
        · rename_i hlt
          constructor
          · intro ip s' hres
            injection hres with h1 h2
            subst h1
            subst h2
            refine ⟨hlt, rfl, le_refl _, Or.inl ⟨rfl, rfl⟩, ?_⟩
            intro hdec
            exact absurd hdec (by simp)
          · intro e s' hres
            exact absurd hres (by simp)
        · rename_i hge
          have IH1 := IHm rest.length (by rw [← hm, hnc]; simp)
            { s with
              current_frame :=
                { s.current_frame with
                  sp := nc.previous_frame_sp
                  gas := nc.previous_frame_gas
                  near_calls := rest }
              flags := ⟨true, false, false⟩
              context_u128 := 0 } Panic.InvalidInstruction hn rfl
          constructor
          · intro ip s' hres
            obtain ⟨g1, g2, g3, g4, g5⟩ := IH1.1 ip s' hres
            refine ⟨g1, g2, g3, ?_, g5⟩
            rcases g4 with ⟨ha, hb⟩ | hz
            · exact Or.inl ⟨ha, hb⟩
            · exact Or.inr hz
          · intro e s' hres
            obtain ⟨g1, g2, g3⟩ := IH1.2 e s' hres
            rcases g3 with h | h
            · exact ⟨g1, g2, Or.inr h⟩
            · exact ⟨g1, g2, Or.inr h⟩
      · rename_i hnc
        split
        · rename_i hpf
          constructor
          · intro ip s' hres
            exact absurd hres (by simp)
          · intro e s' hres
            injection hres with h1 h2
            subst h2
            exact ⟨hnc, hpf, Or.inl h1.symm⟩
        · rename_i p f rest hpf
          dsimp only
          split
          · rename_i hlt
            constructor
            · intro ip s' hres
              injection hres with h1 h2
              subst h1
              subst h2
              refine ⟨hlt, rfl, by simp [hpf], ?_, ?_⟩
              · exact Or.inr ⟨setOne_getD_zero _, orTwo_testBit_one _⟩
              · intro _
                exact ⟨setOne_getD_zero _, orTwo_testBit_one _⟩
            · intro e s' hres
              exact absurd hres (by simp)
          · rename_i hge
            have hlen : rest.length < n := by rw [← hn, hpf]; simp
            have IH1 := IHn rest.length hlen f.near_calls.length
              { s with
                current_frame := f
                previous_frames := rest
                registers := s.registers.set 1 0
                register_pointer_flags := s.register_pointer_flags ||| 2
                flags := ⟨true, false, false⟩
                context_u128 := 0 } Panic.InvalidInstruction rfl rfl
            constructor
            · intro ip s' hres
              obtain ⟨g1, g2, g3, g4, g5⟩ := IH1.1 ip s' hres
              refine ⟨g1, g2, ?_, ?_, ?_⟩
              · have g3' : s'.previous_frames.length ≤ rest.length := g3
                simp only [hpf, List.length_cons]
                omega
              · rcases g4 with ⟨ha, hb⟩ | hz
                · refine Or.inr ⟨?_, ?_⟩
                  · rw [ha]
                    exact setOne_getD_zero _
                  · rw [hb]
                    exact orTwo_testBit_one _
                · exact Or.inr hz
              · intro _
                rcases g4 with ⟨ha, hb⟩ | hz
                · refine ⟨?_, ?_⟩
                  · rw [ha]
                    exact setOne_getD_zero _
                  · rw [hb]
                    exact orTwo_testBit_one _
                · exact hz
            · intro e s' hres
              obtain ⟨g1, g2, g3⟩ := IH1.2 e s' hres
              rcases g3 with h | h
              · exact ⟨g1, g2, Or.inr h⟩
              · exact ⟨g1, g2, Or.inr h⟩

/-- Witness for C8: from `panicState`, the out-of-range near-call handler 99
escalates, the far frame is popped, and control lands at the caller's
handler 6 with flags (true,false,false) and a zeroed register 1 whose
pointer flag is set. -/
theorem ret_panic_unwinds_witness :
    ret_panic panicState Panic.OutOfGas = InstructionResult.continue_at 6 panicFinalState ∧
    (6 < panicFinalState.current_frame.program_length ∧
     panicFinalState.flags = ⟨true, false, false⟩ ∧
     panicFinalState.previous_frames.length ≤ panicState.previous_frames.length ∧
     ((panicFinalState.registers = panicState.registers ∧
       panicFinalState.register_pointer_flags = panicState.register_pointer_flags) ∨
      (panicFinalState.registers.getD 1 0 = 0 ∧
       panicFinalState.register_pointer_flags.testBit 1 = true)) ∧
     (panicFinalState.previous_frames.length < panicState.previous_frames.length →
       panicFinalState.registers.getD 1 0 = 0 ∧
       panicFinalState.register_pointer_flags.testBit 1 = true)) := by
  have heval : ret_panic panicState Panic.OutOfGas
      = InstructionResult.continue_at 6 panicFinalState := by
    simp [ret_panic, panicState, panicFinalState, sampleCaller]
  exact ⟨heval, (ret_panic_unwinds panicState Panic.OutOfGas).1 6 panicFinalState heval⟩
